import Mathlib

/-!
# Avalon web client — verification of the real-time game-session protocol claims

Shallow embedding of the Avalon repository's frontend store
(`frontend/src/store/gameStore.ts`), the `ActionPanel` and page components,
and — where the backend rules engine is not among the sources — models built
from the specification.  JavaScript objects become Lean structures, optional
(`undefined`/`null`) fields become `Option`, and JavaScript truthiness of
strings and numbers is made explicit by helper functions.
-/

namespace Avalon

/-! ## JavaScript truthiness helpers -/

/-- JavaScript `a || d` for an optional string: `undefined` and `""` are falsy. -/
def jsOrStr (v : Option String) (d : String) : String :=
  match v with
  | some s => if s == "" then d else s
  | none => d

/-- JavaScript `a || b` where both sides are optional strings. -/
def jsOrOptStr (a b : Option String) : Option String :=
  match a with
  | some s => if s == "" then b else some s
  | none => b

/-- JavaScript `a || d` for an optional number: `undefined` and `0` are falsy. -/
def jsOrNat (v : Option Nat) (d : Nat) : Nat :=
  match v with
  | some n => if n == 0 then d else n
  | none => d

/-- JavaScript `!s` for a nullable string: `null`/`undefined` and `""` are falsy. -/
def strFalsy (v : Option String) : Bool :=
  match v with
  | some s => s == ""
  | none => true

/-! ## Data model (frontend `types` and store shapes) -/

/-- `WebSocket.readyState` constants of the browser API. -/
inductive WsReadyState
  | CONNECTING
  | OPEN
  | CLOSING
  | CLOSED
deriving DecidableEq, Repr

/-- The transport-level handle the store keeps in its `ws` field. -/
structure WebSocketRef where
  readyState : WsReadyState
  path : String
deriving DecidableEq, Repr

/-- A player as the frontend sees one (`Player` in `types`). -/
structure Player where
  id : String
  name : String
  seat : Nat
  player_type : String
  is_captain : Bool
  is_on_mission : Bool
  is_online : Bool
deriving DecidableEq, Repr

/-- A room snapshot (`Room` in `types`), as polled by the pages. -/
structure Room where
  id : String
  name : String
  host_id : String
  phase : String
  players : List Player
deriving DecidableEq, Repr

/-- The `content` payload of a wire message; every field the client reads is
optional, mirroring property access on a JavaScript `any`. -/
structure MsgContent where
  player_name : Option String := none
  role : Option String := none
  team : Option String := none
  info : Option String := none
  message : Option String := none
  source : Option String := none
  content : Option String := none
  phase : Option String := none
  mission_round : Option Nat := none
  captain : Option String := none
  team_members : List String := []
  mission_success_count : Option Nat := none
  mission_fail_count : Option Nat := none
  reject_count : Option Nat := none
  next_player : Option String := none
deriving DecidableEq, Repr

/-- A wire message as received by `handleMessage` (the envelope
`\x7btype, player_id?, player_name?, content, ...\x7d`). -/
structure WsData where
  type : String
  player_name : Option String := none
  content : Option MsgContent := none
deriving DecidableEq, Repr

/-- `HostGameState` as kept by the store (`GameStatusPanel` shape). -/
structure HostGameState where
  phase : Option String
  mission_round : Option Nat
  captain : Option String
  team_members : List String
  mission_success_count : Nat
  mission_fail_count : Nat
  reject_count : Nat
  next_player : Option String
deriving DecidableEq, Repr

/-- The `GameState` fields `handleMessage` reads and writes. -/
structure GameState where
  phase : String
  current_mission : Nat
  vote_reject_count : Nat
  mission_results : List Bool
deriving DecidableEq, Repr

/-- The Zustand `GameStore` state (`gameStore.ts`). -/
structure StoreState where
  roomId : Option String
  playerId : Option String
  playerName : Option String
  room : Option Room
  gameState : Option GameState
  hostGameState : Option HostGameState
  messages : List WsData
  ws : Option WebSocketRef
  isConnected : Bool
deriving DecidableEq, Repr

/-! ## `connect` (`gameStore.ts`) -/

/-- What a single call to `connect` did. -/
inductive ConnectOutcome
  | missingIds
  | alreadyLive
  | opened (closedStale : Bool)
deriving DecidableEq, Repr

/-- The freshly constructed `new WebSocket(wsUrl)`: state `CONNECTING`, path
`/ws/game/...` for the game page and `/ws/...` otherwise. -/
def newSocket (isGamePage : Bool) (roomId playerId : String) : WebSocketRef :=
  { readyState := WsReadyState.CONNECTING
    path :=
      if isGamePage then "/ws/game/" ++ roomId ++ "/" ++ playerId
      else "/ws/" ++ roomId ++ "/" ++ playerId }

/-- `connect(isGamePage)`: returns unchanged when ids are missing, returns
unchanged when the stored socket is `OPEN` or `CONNECTING`, otherwise closes
any stale stored socket and registers exactly one new socket. -/
def connect (s : StoreState) (isGamePage : Bool) : StoreState × ConnectOutcome :=
  if strFalsy s.roomId || strFalsy s.playerId then
    (s, ConnectOutcome.missingIds)
  else
    match s.ws with
    | some w =>
      if w.readyState == WsReadyState.OPEN || w.readyState == WsReadyState.CONNECTING then
        (s, ConnectOutcome.alreadyLive)
      else
        ({ s with ws := some (newSocket isGamePage (s.roomId.getD "") (s.playerId.getD "")) },
         ConnectOutcome.opened true)
    | none =>
        ({ s with ws := some (newSocket isGamePage (s.roomId.getD "") (s.playerId.getD "")) },
         ConnectOutcome.opened false)

/-! ## `ws.onclose` and the kicked notification -/

/-- The `detail` of the `ws-kicked` custom event. -/
structure KickedEvent where
  reason : String
deriving DecidableEq, Repr

/-- `ws.onclose`: always clears `isConnected` and `ws`; dispatches `ws-kicked`
with `event.reason || '您已在其他页面打开游戏'` exactly when the close code
is `4001`. -/
def wsOnClose (s : StoreState) (code : Nat) (reason : String) :
    StoreState × Option KickedEvent :=
  let s1 := { s with isConnected := false, ws := (none : Option WebSocketRef) }
  if code == 4001 then
    (s1, some { reason := jsOrStr (some reason) "您已在其他页面打开游戏" })
  else
    (s1, none)

/-- Browser-visible effects of the game page's kicked handler. -/
inductive PageEffect
  | toastWarning (text : String)
  | navigate (path : String)
deriving DecidableEq, Repr

/-- `GamePage`'s `handleKicked`: toast the reason and navigate back to
`/room/\x7broomId\x7d`; it never reconnects. -/
def handleKicked (roomId : String) (k : KickedEvent) : List PageEffect :=
  [PageEffect.toastWarning (jsOrStr (some k.reason) "您已在其他页面打开游戏"),
   PageEffect.navigate ("/room/" ++ roomId)]

/-! ## `sendMessage` (`gameStore.ts`) -/

/-- The observable effect of `sendMessage`: either the JSON-serialized message
went out on the socket, or only an error was logged. -/
inductive SendEffect (α : Type)
  | sent (message : α)
  | loggedError
deriving DecidableEq, Repr

/-- `sendMessage(message)`: serialize and send when `ws` exists and is `OPEN`;
otherwise only `console.error`, no store mutation, no exception. -/
def sendMessage {α : Type} (s : StoreState) (message : α) : StoreState × SendEffect α :=
  match s.ws with
  | some w =>
    if w.readyState == WsReadyState.OPEN then (s, SendEffect.sent message)
    else (s, SendEffect.loggedError)
  | none => (s, SendEffect.loggedError)

/-! ## `handleMessage` (`gameStore.ts`) -/

/-- The message types appended to the game log (`displayTypes`). -/
def displayTypes : List String :=
  ["game_message", "game_start", "role_assigned", "game_over", "waiting_input", "error"]

/-- The `game_state_update` branch: rebuild `hostGameState` from the content
and, when a `gameState` exists, merge the update into it with JavaScript
`||` / `??` defaulting. -/
def applyStateUpdate (s : StoreState) (c : MsgContent) : StoreState :=
  let s1 := { s with
    hostGameState := some {
      phase := c.phase
      mission_round := c.mission_round
      captain := c.captain
      team_members := c.team_members
      mission_success_count := c.mission_success_count.getD 0
      mission_fail_count := c.mission_fail_count.getD 0
      reject_count := c.reject_count.getD 0
      next_player := c.next_player } }
  match s1.gameState with
  | some cur =>
      { s1 with
        gameState := some {
          phase := jsOrStr c.phase cur.phase
          current_mission := jsOrNat c.mission_round cur.current_mission
          vote_reject_count := c.reject_count.getD cur.vote_reject_count
          mission_results :=
            (List.replicate (c.mission_success_count.getD 0) true ++
             List.replicate (c.mission_fail_count.getD 0) false).take 5 } }
  | none => s1

/-- `handleMessage(data)`: first append `data` to `messages` when its type is
in `displayTypes`; then the `switch` — `game_state_update` merges the state,
`game_stopped` empties the log, `game_restart` clears the host state and the
log, and every other branch only logs (the `room_closed` toast/redirect is a
browser effect, not a store mutation). -/
def handleMessage (s : StoreState) (data : WsData) : StoreState :=
  let s1 :=
    if displayTypes.contains data.type then { s with messages := s.messages ++ [data] }
    else s
  if data.type == "game_state_update" then
    match data.content with
    | some c => applyStateUpdate s1 c
    | none => s1
  else if data.type == "game_stopped" then
    { s1 with messages := [] }
  else if data.type == "game_restart" then
    { s1 with hostGameState := none, messages := [] }
  else
    s1

/-! ## `GamePage` message rendering (`GamePage.tsx`) -/

/-- What one entry of the game log renders to, by message type. -/
inductive RenderedMsg
  | gameStartChip (text : String)
  | waitingChip (target : Option String)
  | roleCard (role team info : Option String)
  | chatBubble (source : String) (body : Option String)
  | gameOverCard (text : Option String)
  | errorCard (text : Option String)
deriving DecidableEq, Repr

/-- `GamePage`'s per-message renderer over `messages`.  `playerName` is the
local session's player name.  `waiting_input` for the local player and
`role_assigned` for anyone else render as `null`; message types outside the
handled six render as `null` as well. -/
def renderMessage (playerName : String) (msg : WsData) : Option RenderedMsg :=
  if msg.type == "game_start" then
    some (RenderedMsg.gameStartChip (jsOrStr (msg.content.bind MsgContent.message) "游戏开始"))
  else if msg.type == "waiting_input" then
    let target := jsOrOptStr (msg.content.bind MsgContent.player_name) msg.player_name
    if target == some playerName then none
    else some (RenderedMsg.waitingChip target)
  else if msg.type == "role_assigned" then
    if msg.player_name ≠ some playerName then none
    else
      some (RenderedMsg.roleCard (msg.content.bind MsgContent.role)
        (msg.content.bind MsgContent.team) (msg.content.bind MsgContent.info))
  else if msg.type == "game_message" then
    some (RenderedMsg.chatBubble
      (jsOrStr (jsOrOptStr (msg.content.bind MsgContent.source) msg.player_name) "system")
      (msg.content.bind MsgContent.content))
  else if msg.type == "game_over" then
    some (RenderedMsg.gameOverCard (msg.content.bind MsgContent.message))
  else if msg.type == "error" then
    some (RenderedMsg.errorCard (msg.content.bind MsgContent.message))
  else
    none

/-! ## `ActionPanel` (`ActionPanel.tsx`) -/

/-- `MISSION_CONFIG`, the team-size table `\x7b1: 2, 2: 3, 3: 3, 4: 4, 5: 4\x7d`;
indexing any other round yields `undefined`. -/
def MISSION_CONFIG (round : Nat) : Option Nat :=
  match round with
  | 1 => some 2
  | 2 => some 3
  | 3 => some 3
  | 4 => some 4
  | 5 => some 4
  | _ => none

/-- JavaScript `a === b` for a number against a possibly-`undefined` number. -/
def jsEqOptNat (a : Nat) (b : Option Nat) : Bool :=
  match b with
  | some n => a == n
  | none => false

/-- What `renderContent` of `ActionPanel` shows for a given prop combination. -/
inductive PanelView
  | teamSelectCaptain (teamSize : Option Nat) (selectedCount : Nat) (confirmEnabled : Bool)
  | teamSelectWait
  | speakingInput
  | votingDone
  | votingButtons
  | missionSpectate
  | missionDone
  | missionButtons (failOffered : Bool)
  | assassinateWait
  | assassinatePanel (targets : List String) (confirmEnabled : Bool)
  | gameOverPanel
  | idle
deriving DecidableEq, Repr

/-- The props of `ActionPanel` used by `renderContent`; the optional
`haveVoted?`/`haveMissionVoted?` booleans default to false. -/
structure ActionPanelProps where
  phase : String
  isCaptain : Bool
  isOnMission : Bool
  myRole : Option String
  myTeam : Option String
  players : List Player
  selectedTeam : List String
  currentMission : Nat
  haveVoted : Bool := false
  haveMissionVoted : Bool := false
deriving DecidableEq, Repr

/-- `renderContent` of `ActionPanel`: the phase `switch`.  `assassinTarget` is
the component's local selection state.  The team-confirm button is disabled by
`selectedTeam.length !== teamSize`; the mission-fail button is rendered only
under `isEvil` (`myTeam === 'evil'`); the assassinate branch is gated on
`myRole !== '刺客'`, lists `players.filter(() => true)` as targets and disables
confirmation while no target is selected. -/
def renderContent (p : ActionPanelProps) (assassinTarget : Option String) : PanelView :=
  let teamSize := MISSION_CONFIG p.currentMission
  let isEvil := p.myTeam == some "evil"
  if p.phase == "team_select" then
    if p.isCaptain then
      PanelView.teamSelectCaptain teamSize p.selectedTeam.length
        (jsEqOptNat p.selectedTeam.length teamSize)
    else PanelView.teamSelectWait
  else if p.phase == "speaking" then
    PanelView.speakingInput
  else if p.phase == "voting" then
    if p.haveVoted then PanelView.votingDone else PanelView.votingButtons
  else if p.phase == "mission" then
    if !p.isOnMission then PanelView.missionSpectate
    else if p.haveMissionVoted then PanelView.missionDone
    else PanelView.missionButtons isEvil
  else if p.phase == "assassinate" then
    if p.myRole ≠ some "刺客" then PanelView.assassinateWait
    else
      PanelView.assassinatePanel ((p.players.filter (fun _ => true)).map Player.name)
        assassinTarget.isSome
  else if p.phase == "game_over" then
    PanelView.gameOverPanel
  else
    PanelView.idle

/-! ## `RoomPage` handlers (`RoomPage.tsx`, logged-in variant) -/

/-- The logged-in user as the room page sees it (`authStore`). -/
structure User where
  ai_credits : Int
deriving DecidableEq, Repr

/-- Outcome of `handleAddAI`: either an early return, or the add request was
issued.  Credits are never touched on this path (the source notes the charge
happens only at game start). -/
inductive AddAIOutcome
  | missingRoom
  | needLogin (errorText : String)
  | requested (count : Nat)
deriving DecidableEq, Repr

/-- `handleAddAI(count)`: requires a room id and a logged-in token, then calls
`roomApi.addAI`; the returned credit balance is the input balance in every
branch. -/
def handleAddAI (roomId : Option String) (isLoggedIn : Bool) (token : Option String)
    (credits : Int) (count : Nat) : AddAIOutcome × Int :=
  if strFalsy roomId then (AddAIOutcome.missingRoom, credits)
  else if !isLoggedIn || strFalsy token then
    (AddAIOutcome.needLogin "添加AI玩家需要先登录", credits)
  else
    (AddAIOutcome.requested count, credits)

/-- Outcome of `handleStartGame`: the credit check can block the start before
any request is issued (reporting required and remaining amounts); otherwise
the start request runs and, on success, `newCredits` is the updated local
balance (set only when logged in and the server reported a nonzero
`ai_consumed`). -/
inductive StartOutcome
  | missingIds
  | blockedInsufficient (required remaining : Int)
  | startedAndNavigated (newCredits : Option Int)
  | startFailed (errorText : String)
deriving DecidableEq, Repr

/-- The number of seated AI players, `room?.players?.filter(p => p.player_type === 'ai').length || 0`. -/
def aiSeatedCount (room : Option Room) : Nat :=
  match room with
  | some r => (r.players.filter (fun p => p.player_type == "ai")).length
  | none => 0

/-- `handleStartGame`: check ids, then — when logged in with a user — block if
the seated AI count exceeds `user.ai_credits`; otherwise issue
`gameApi.start` (its result is `serverResult`, carrying `ai_consumed` on
success) and reduce the local balance by exactly `ai_consumed` when logged in
and `ai_consumed` is truthy. -/
def handleStartGame (roomId playerId : Option String) (isLoggedIn : Bool)
    (user : Option User) (room : Option Room) (serverResult : Except String Int) :
    StartOutcome :=
  if strFalsy roomId || strFalsy playerId then StartOutcome.missingIds
  else
    let aiCount : Int := aiSeatedCount room
    match user with
    | some u =>
      if isLoggedIn && aiCount > u.ai_credits then
        StartOutcome.blockedInsufficient aiCount u.ai_credits
      else
        match serverResult with
        | Except.ok aiConsumed =>
            StartOutcome.startedAndNavigated
              (if isLoggedIn && aiConsumed != 0 then some (u.ai_credits - aiConsumed) else none)
        | Except.error e => StartOutcome.startFailed e
    | none =>
      match serverResult with
      | Except.ok _ => StartOutcome.startedAndNavigated none
      | Except.error e => StartOutcome.startFailed e

/-! ## Backend models

The backend (`backend/app/game_engine.py`, `websocket_manager.py`) is not
among the sources; only the frontend and the README are.  The rules engine and
the broadcast router are therefore modelled from the specification and the
README's tables. -/

/-- Mission fail-vote thresholds for the 7-player game, from the README's
任务配置 table: one fail vote per round except round 4, which needs two. -/
def FAIL_THRESHOLD (round : Nat) : Option Nat :=
  match round with
  | 1 => some 1
  | 2 => some 1
  | 3 => some 1
  | 4 => some 2
  | 5 => some 1
  | _ => none

/-- Modelled from the spec: the Broadcast Router's audience rule for
`role_assigned` (backend `websocket_manager.py` is missing from the sources) —
the message is delivered to the targeted player's channel only, never
room-wide. -/
def routeRoleAssigned (roster : List String) (msg : WsData) : List (String × WsData) :=
  roster.filterMap (fun p => if msg.player_name == some p then some (p, msg) else none)

/-- The game phases of the Phase State Machine. -/
inductive Phase
  | waiting
  | role_assign
  | team_select
  | speaking
  | voting
  | mission
  | assassinate
  | game_over
deriving DecidableEq, Repr

/-- The winning side recorded at `game_over`. -/
inductive Winner
  | good
  | evil
deriving DecidableEq, Repr

/-- The engine-owned `GameState` of the specification's data model. -/
structure EngineState where
  phase : Phase
  mission_round : Nat
  reject_count : Nat
  mission_success_count : Nat
  mission_fail_count : Nat
  winner : Option Winner
deriving DecidableEq, Repr

/-- The inputs that drive the Phase State Machine. -/
inductive EngineEvent
  | startGame
  | rolesAssigned
  | teamSelected
  | speakingDone
  | voteApproved
  | voteRejected
  | missionResolved (failVotes : Nat)
  | assassinTargetIsMerlin (isMerlin : Bool)
deriving DecidableEq, Repr

/-- Modelled from the spec: the backend Phase State Machine
(`game_engine.py` is missing from the sources).  Transitions follow the
specification's state diagram: an approved vote clears `reject_count` and
enters `mission`; a rejected vote increments it, ending the game for evil at
five; mission resolution uses `FAIL_THRESHOLD`, with the third success
entering `assassinate`, the third failure ending the game for evil, and any
other result rotating back to `team_select` with the round advanced;
assassination decides the winner; all other `(phase, event)` pairs are illegal
actions and leave the state unchanged. -/
def specStep (s : EngineState) (e : EngineEvent) : EngineState :=
  match s.phase, e with
  | Phase.waiting, EngineEvent.startGame => { s with phase := Phase.role_assign }
  | Phase.role_assign, EngineEvent.rolesAssigned => { s with phase := Phase.team_select }
  | Phase.team_select, EngineEvent.teamSelected => { s with phase := Phase.speaking }
  | Phase.speaking, EngineEvent.speakingDone => { s with phase := Phase.voting }
  | Phase.voting, EngineEvent.voteApproved =>
      { s with phase := Phase.mission, reject_count := 0 }
  | Phase.voting, EngineEvent.voteRejected =>
      if s.reject_count + 1 == 5 then
        { s with phase := Phase.game_over, reject_count := s.reject_count + 1,
                 winner := some Winner.evil }
      else
        { s with phase := Phase.team_select, reject_count := s.reject_count + 1 }
  | Phase.mission, EngineEvent.missionResolved failVotes =>
      let failed : Bool :=
        match FAIL_THRESHOLD s.mission_round with
        | some t => decide (t ≤ failVotes)
        | none => false
      if failed then
        if s.mission_fail_count + 1 == 3 then
          { s with phase := Phase.game_over, mission_fail_count := s.mission_fail_count + 1,
                   winner := some Winner.evil }
        else
          { s with phase := Phase.team_select, mission_fail_count := s.mission_fail_count + 1,
                   mission_round := s.mission_round + 1 }
      else
        if s.mission_success_count + 1 == 3 then
          { s with phase := Phase.assassinate,
                   mission_success_count := s.mission_success_count + 1 }
        else
          { s with phase := Phase.team_select,
                   mission_success_count := s.mission_success_count + 1,
                   mission_round := s.mission_round + 1 }
  | Phase.assassinate, EngineEvent.assassinTargetIsMerlin isMerlin =>
      { s with phase := Phase.game_over,
               winner := some (if isMerlin then Winner.evil else Winner.good) }
  | _, _ => s

/-! ## Theorems -/

/-- C2: for every mission round 1..5 of the 7-player game, `MISSION_CONFIG`
returns exactly the table values 2, 3, 3, 4, 4; the captain's team-confirm
button is enabled exactly when the number of selected members equals the
table's value for the current round; and the companion fail-threshold table is
1 per round except round 4, which is 2. -/
theorem mission_table_and_confirm_gate :
    (MISSION_CONFIG 1 = some 2 ∧ MISSION_CONFIG 2 = some 3 ∧ MISSION_CONFIG 3 = some 3 ∧
     MISSION_CONFIG 4 = some 4 ∧ MISSION_CONFIG 5 = some 4) ∧
    (FAIL_THRESHOLD 1 = some 1 ∧ FAIL_THRESHOLD 2 = some 1 ∧ FAIL_THRESHOLD 3 = some 1 ∧
     FAIL_THRESHOLD 4 = some 2 ∧ FAIL_THRESHOLD 5 = some 1) ∧
    (∀ (p : ActionPanelProps) (t : Option String),
      p.phase = "team_select" → p.isCaptain = true →
      renderContent p t =
        PanelView.teamSelectCaptain (MISSION_CONFIG p.currentMission) p.selectedTeam.length
          (jsEqOptNat p.selectedTeam.length (MISSION_CONFIG p.currentMission)) ∧
      (jsEqOptNat p.selectedTeam.length (MISSION_CONFIG p.currentMission) = true ↔
        MISSION_CONFIG p.currentMission = some p.selectedTeam.length)) := by
  refine ⟨⟨rfl, rfl, rfl, rfl, rfl⟩, ⟨rfl, rfl, rfl, rfl, rfl⟩, ?_⟩
  intro p t hphase hcap
  constructor
  · simp [renderContent, hphase, hcap]
  · cases h : MISSION_CONFIG p.currentMission with
    | none => simp [jsEqOptNat]
    | some n =>
        simp only [jsEqOptNat, beq_iff_eq, Option.some.injEq]
        omega

/-- Witness for C2 at a concrete captain in round 1 with two selected members. -/
theorem mission_table_and_confirm_gate_witness :
    let p : ActionPanelProps :=
      { phase := "team_select", isCaptain := true, isOnMission := false,
        myRole := some "梅林", myTeam := some "good", players := [],
        selectedTeam := ["Alice", "Bob"], currentMission := 1 }
    p.phase = "team_select" ∧ p.isCaptain = true ∧
      renderContent p none = PanelView.teamSelectCaptain (some 2) 2 true := by
  intro p
  refine ⟨rfl, rfl, ?_⟩
  have h := (mission_table_and_confirm_gate.2.2 p none rfl rfl).1
  simpa [MISSION_CONFIG, jsEqOptNat] using h

/-- C3: in the mission phase the fail action is rendered exactly when the
player's team is evil, so a good-aligned team member is only offered the
success action; a player off the team sees only the spectator notice and a
player who already submitted a ballot sees only the waiting notice — neither
view carries any mission action. -/
theorem mission_fail_action_evil_only :
    ∀ (p : ActionPanelProps) (t : Option String), p.phase = "mission" →
      (p.isOnMission = false → renderContent p t = PanelView.missionSpectate) ∧
      (p.isOnMission = true → p.haveMissionVoted = true →
        renderContent p t = PanelView.missionDone) ∧
      (p.isOnMission = true → p.haveMissionVoted = false →
        renderContent p t = PanelView.missionButtons (p.myTeam == some "evil") ∧
        ((p.myTeam == some "evil") = true ↔ p.myTeam = some "evil")) := by
  intro p t hphase
  refine ⟨?_, ?_, ?_⟩
  · intro hoff
    simp [renderContent, hphase, hoff]
  · intro hon hvoted
    simp [renderContent, hphase, hon, hvoted]
  · intro hon hnot
    refine ⟨by simp [renderContent, hphase, hon, hnot], ?_⟩
    simp

/-- Witness for C3: a good-aligned team member in the mission phase is offered
only the success action. -/
theorem mission_fail_action_evil_only_witness :
    let p : ActionPanelProps :=
      { phase := "mission", isCaptain := false, isOnMission := true,
        myRole := some "忠臣", myTeam := some "good", players := [],
        selectedTeam := [], currentMission := 2 }
    p.phase = "mission" ∧ p.isOnMission = true ∧ p.haveMissionVoted = false ∧
      renderContent p none = PanelView.missionButtons false := by
  intro p
  refine ⟨rfl, rfl, rfl, ?_⟩
  have h := ((mission_fail_action_evil_only p none rfl).2.2 rfl rfl).1
  simpa using h

/-- C7: in the assassinate phase only the role 刺客 gets the assassination
panel — every other player sees the passive waiting notice; the panel lists
every seated player as a selectable target and its confirm action is enabled
exactly when a target is selected. -/
theorem assassinate_gate :
    ∀ (p : ActionPanelProps) (t : Option String), p.phase = "assassinate" →
      (p.myRole ≠ some "刺客" → renderContent p t = PanelView.assassinateWait) ∧
      (p.myRole = some "刺客" →
        renderContent p t = PanelView.assassinatePanel (p.players.map Player.name) t.isSome ∧
        (∀ pl ∈ p.players, pl.name ∈ p.players.map Player.name) ∧
        (t.isSome = true ↔ t ≠ none)) := by
  intro p t hphase
  refine ⟨?_, ?_⟩
  · intro hrole
    simp [renderContent, hphase, hrole]
  · intro hrole
    refine ⟨by simp [renderContent, hphase, hrole], ?_, ?_⟩
    · intro pl hpl
      exact List.mem_map_of_mem Player.name hpl
    · simp [Option.isSome_iff_ne_none]

/-- Witness for C7: the assassin with a selected target over a two-player
roster gets the full target list and an enabled confirm action. -/
theorem assassinate_gate_witness :
    let alice : Player :=
      { id := "p1", name := "Alice", seat := 1, player_type := "human",
        is_captain := false, is_on_mission := false, is_online := true }
    let bob : Player :=
      { id := "p2", name := "Bob", seat := 2, player_type := "ai",
        is_captain := false, is_on_mission := false, is_online := true }
    let p : ActionPanelProps :=
      { phase := "assassinate", isCaptain := false, isOnMission := false,
        myRole := some "刺客", myTeam := some "evil", players := [alice, bob],
        selectedTeam := [], currentMission := 5 }
    p.phase = "assassinate" ∧ p.myRole = some "刺客" ∧
      renderContent p (some "p1") = PanelView.assassinatePanel ["Alice", "Bob"] true := by
  intro alice bob p
  refine ⟨rfl, rfl, ?_⟩
  have h := ((assassinate_gate p (some "p1") rfl).2 rfl).1
  simpa using h

/-- C1: the router model delivers a `role_assigned` message only to its
targeted player (nothing reaches a player the message is not addressed to);
in the client, the game page renders a `role_assigned` entry exactly when its
`player_name` equals the local player's name, while the store's
`handleMessage` appends every received `role_assigned` to the local messages
list regardless of its target. -/
theorem role_assigned_privacy :
    (∀ (roster : List String) (msg : WsData) (p : String) (d : WsData),
       (p, d) ∈ routeRoleAssigned roster msg → d = msg ∧ msg.player_name = some p) ∧
    (∀ (localName : String) (msg : WsData), msg.type = "role_assigned" →
       ((renderMessage localName msg).isSome ↔ msg.player_name = some localName)) ∧
    (∀ (s : StoreState) (msg : WsData), msg.type = "role_assigned" →
       (handleMessage s msg).messages = s.messages ++ [msg]) := by
  refine ⟨?_, ?_, ?_⟩
  · intro roster msg p d hmem
    simp only [routeRoleAssigned, List.mem_filterMap] at hmem
    obtain ⟨q, _, hq⟩ := hmem
    by_cases h : msg.player_name = some q
    · simp [h] at hq
      obtain ⟨hp, hd⟩ := hq
      exact ⟨hd.symm, hp ▸ h⟩
    · simp [h] at hq
  · intro localName msg htype
    by_cases h : msg.player_name = some localName
    · simp [renderMessage, htype, h]
    · simp [renderMessage, htype, h]
  · intro s msg htype
    simp [handleMessage, displayTypes, htype]

/-- Witness for C1: a `role_assigned` addressed to Alice over an
Alice/Bob roster reaches only Alice's channel, renders for Alice, does not
render for Bob, and is appended to any receiving store's log. -/
theorem role_assigned_privacy_witness :
    let msg : WsData :=
      { type := "role_assigned", player_name := some "Alice",
        content := some { role := some "梅林", team := some "good", info := some "坏人是 Bob" } }
    let s0 : StoreState :=
      { roomId := some "r1", playerId := some "p2", playerName := some "Bob",
        room := none, gameState := none, hostGameState := none,
        messages := [], ws := none, isConnected := false }
    routeRoleAssigned ["Alice", "Bob"] msg = [("Alice", msg)] ∧
      msg.type = "role_assigned" ∧
      (renderMessage "Bob" msg).isSome = false ∧
      (renderMessage "Alice" msg).isSome = true ∧
      (handleMessage s0 msg).messages = [msg] := by
  intro msg s0
  refine ⟨by simp [routeRoleAssigned, msg], rfl, ?_, ?_, ?_⟩
  · simp only [Bool.eq_false_iff, Ne, Option.isSome_iff_exists]
    intro hcontra
    have : msg.player_name = some "Bob" := by
      have := (role_assigned_privacy.2.1 "Bob" msg rfl).mp (by simp [Option.isSome_iff_exists, hcontra])
      exact this
    simp [msg] at this
  · have h := (role_assigned_privacy.2.1 "Alice" msg rfl).mpr (by simp [msg])
    simpa using h
  · have h := role_assigned_privacy.2.2 s0 msg rfl
    simpa [s0] using h

/-- C4: the game WebSocket's close handler raises the `ws-kicked` notification
exactly when the close code is 4001, carrying the close reason (or the default
text when the reason is empty); the game page's kicked handler toasts the
reason and navigates back to the room page — its effect list contains no
reconnect. -/
theorem kicked_iff_4001 :
    ∀ (s : StoreState) (code : Nat) (reason : String),
      ((wsOnClose s code reason).2.isSome ↔ code = 4001) ∧
      (code = 4001 →
        (wsOnClose s code reason).2 =
          some { reason := jsOrStr (some reason) "您已在其他页面打开游戏" }) ∧
      (∀ (roomId : String) (k : KickedEvent),
        handleKicked roomId k =
          [PageEffect.toastWarning (jsOrStr (some k.reason) "您已在其他页面打开游戏"),
           PageEffect.navigate ("/room/" ++ roomId)]) := by
  intro s code reason
  refine ⟨?_, ?_, fun _ _ => rfl⟩
  · by_cases h : code = 4001
    · simp [wsOnClose, h]
    · simp [wsOnClose, h]
  · intro h
    simp [wsOnClose, h]

/-- Witness for C4: closing with code 4001 and a nonempty reason raises the
kicked notification with that reason, a code-1000 close raises none, and the
handler navigates to the room page. -/
theorem kicked_iff_4001_witness :
    let s0 : StoreState :=
      { roomId := some "r1", playerId := some "p1", playerName := some "Alice",
        room := none, gameState := none, hostGameState := none, messages := [],
        ws := some { readyState := WsReadyState.OPEN, path := "/ws/game/r1/p1" },
        isConnected := true }
    (wsOnClose s0 4001 "superseded").2 = some { reason := "superseded" } ∧
      (wsOnClose s0 1000 "").2 = none ∧
      handleKicked "r1" { reason := "superseded" } =
        [PageEffect.toastWarning "superseded", PageEffect.navigate "/room/r1"] := by
  intro s0
  refine ⟨?_, ?_, ?_⟩
  · have h := (kicked_iff_4001 s0 4001 "superseded").2.1 rfl
    simpa [jsOrStr] using h
  · have h := (kicked_iff_4001 s0 1000 "").1
    simp only [Option.isSome_iff_exists] at h
    cases heq : (wsOnClose s0 1000 "").2 with
    | none => rfl
    | some k =>
        have : (1000 : Nat) = 4001 := h.mp ⟨k, heq⟩
        simp at this
  · have h := (kicked_iff_4001 s0 4001 "superseded").2.2 "r1" { reason := "superseded" }
    simpa [jsOrStr] using h

/-- C5: `connect` never yields two live sockets — when the stored socket is
`OPEN` or `CONNECTING` the call returns with the state unchanged and no new
socket; otherwise any stale stored socket is closed and exactly one fresh
socket is created and registered. -/
theorem connect_single_socket :
    ∀ (s : StoreState) (isGamePage : Bool),
      strFalsy s.roomId = false → strFalsy s.playerId = false →
      (∀ w, s.ws = some w →
        (w.readyState = WsReadyState.OPEN ∨ w.readyState = WsReadyState.CONNECTING) →
        connect s isGamePage = (s, ConnectOutcome.alreadyLive)) ∧
      (∀ w, s.ws = some w →
        w.readyState ≠ WsReadyState.OPEN → w.readyState ≠ WsReadyState.CONNECTING →
        connect s isGamePage =
          ({ s with ws := some (newSocket isGamePage (s.roomId.getD "") (s.playerId.getD "")) },
           ConnectOutcome.opened true)) ∧
      (s.ws = none →
        connect s isGamePage =
          ({ s with ws := some (newSocket isGamePage (s.roomId.getD "") (s.playerId.getD "")) },
           ConnectOutcome.opened false)) := by
  intro s isGamePage hroom hplayer
  refine ⟨?_, ?_, ?_⟩
  · intro w hw hlive
    rcases hlive with h | h <;>
      simp [connect, hroom, hplayer, hw, h]
  · intro w hw hopen hconn
    simp [connect, hroom, hplayer, hw, hopen, hconn]
  · intro hw
    simp [connect, hroom, hplayer, hw]

/-- Witness for C5: with an `OPEN` stored socket the call is a no-op; with a
`CLOSED` stored socket the stale socket is replaced by exactly one fresh
`CONNECTING` socket. -/
theorem connect_single_socket_witness :
    let live : StoreState :=
      { roomId := some "r1", playerId := some "p1", playerName := some "Alice",
        room := none, gameState := none, hostGameState := none, messages := [],
        ws := some { readyState := WsReadyState.OPEN, path := "/ws/r1/p1" },
        isConnected := true }
    let stale : StoreState :=
      { live with ws := some { readyState := WsReadyState.CLOSED, path := "/ws/r1/p1" } }
    strFalsy live.roomId = false ∧ strFalsy live.playerId = false ∧
      connect live true = (live, ConnectOutcome.alreadyLive) ∧
      connect stale true =
        ({ stale with
            ws := some { readyState := WsReadyState.CONNECTING, path := "/ws/game/r1/p1" } },
         ConnectOutcome.opened true) := by
  intro live stale
  refine ⟨rfl, rfl, ?_, ?_⟩
  · exact (connect_single_socket live true rfl rfl).1 _ rfl (Or.inl rfl)
  · have h := (connect_single_socket stale true rfl rfl).2.1 _ rfl
      (by simp) (by simp)
    simpa [newSocket] using h

/-- C6: in the modelled engine, `reject_count` increases only on a rejected
team vote (and then by exactly one), resets to 0 whenever a team is approved,
and the fifth rejection is terminal: the game moves to `game_over` with evil
as the winner whatever the mission scores, and the `game_over` state absorbs
every subsequent input. -/
theorem reject_count_machine :
    (∀ (s : EngineState) (e : EngineEvent),
       s.reject_count < (specStep s e).reject_count →
       s.phase = Phase.voting ∧ e = EngineEvent.voteRejected ∧
       (specStep s e).reject_count = s.reject_count + 1) ∧
    (∀ s : EngineState, s.phase = Phase.voting →
       (specStep s EngineEvent.voteApproved).reject_count = 0) ∧
    (∀ s : EngineState, s.phase = Phase.voting → s.reject_count = 4 →
       (specStep s EngineEvent.voteRejected).phase = Phase.game_over ∧
       (specStep s EngineEvent.voteRejected).winner = some Winner.evil) ∧
    (∀ (s : EngineState) (e : EngineEvent), s.phase = Phase.game_over →
       specStep s e = s) := by
  refine ⟨?_, ?_, ?_, ?_⟩
  · rintro ⟨ph, mr, rc, msc, mfc, w⟩ e hlt
    cases ph <;> cases e <;> simp_all [specStep]
    all_goals (repeat' split at hlt)
    all_goals (repeat' split)
    all_goals simp_all
  · rintro ⟨ph, mr, rc, msc, mfc, w⟩ hph
    subst hph
    simp [specStep]
  · rintro ⟨ph, mr, rc, msc, mfc, w⟩ hph hrc
    subst hph
    simp_all [specStep]
  · rintro ⟨ph, mr, rc, msc, mfc, w⟩ e hph
    subst hph
    cases e <;> simp [specStep]

/-- Witness for C6: from a voting state with four rejections and two mission
successes already scored, a fifth rejection ends the game for evil, while an
approval from one rejection resets the counter. -/
theorem reject_count_machine_witness :
    let onTheBrink : EngineState :=
      { phase := Phase.voting, mission_round := 4, reject_count := 4,
        mission_success_count := 2, mission_fail_count := 1, winner := none }
    let oneReject : EngineState := { onTheBrink with reject_count := 1 }
    onTheBrink.phase = Phase.voting ∧ onTheBrink.reject_count = 4 ∧
      (specStep onTheBrink EngineEvent.voteRejected).phase = Phase.game_over ∧
      (specStep onTheBrink EngineEvent.voteRejected).winner = some Winner.evil ∧
      (specStep oneReject EngineEvent.voteApproved).reject_count = 0 := by
  intro onTheBrink oneReject
  refine ⟨rfl, rfl, ?_, ?_, ?_⟩
  · exact (reject_count_machine.2.2.1 onTheBrink rfl rfl).1
  · exact (reject_count_machine.2.2.1 onTheBrink rfl rfl).2
  · exact reject_count_machine.2.1 oneReject rfl

/-- C8: adding an AI player returns the credit balance untouched in every
branch; at game start a logged-in host whose seated AI count exceeds the
balance is blocked with the required and remaining amounts reported and no
request issued, and a successful start reduces the local balance by exactly
the server's `ai_consumed`. -/
theorem credits_start_only :
    (∀ (roomId : Option String) (isLoggedIn : Bool) (token : Option String)
       (credits : Int) (count : Nat),
       (handleAddAI roomId isLoggedIn token credits count).2 = credits) ∧
    (∀ (roomId playerId : Option String) (u : User) (room : Option Room)
       (res : Except String Int),
       strFalsy roomId = false → strFalsy playerId = false →
       (aiSeatedCount room : Int) > u.ai_credits →
       handleStartGame roomId playerId true (some u) room res =
         StartOutcome.blockedInsufficient (aiSeatedCount room) u.ai_credits) ∧
    (∀ (roomId playerId : Option String) (u : User) (room : Option Room)
       (aiConsumed : Int),
       strFalsy roomId = false → strFalsy playerId = false →
       ¬ (aiSeatedCount room : Int) > u.ai_credits → aiConsumed ≠ 0 →
       handleStartGame roomId playerId true (some u) room (Except.ok aiConsumed) =
         StartOutcome.startedAndNavigated (some (u.ai_credits - aiConsumed))) := by
  refine ⟨?_, ?_, ?_⟩
  · intro roomId isLoggedIn token credits count
    simp only [handleAddAI]
    repeat' split
    all_goals rfl
  · intro roomId playerId u room res hroom hplayer hover
    simp [handleStartGame, hroom, hplayer, hover]
  · intro roomId playerId u room aiConsumed hroom hplayer hnot hne
    simp [handleStartGame, hroom, hplayer, hnot, hne]

/-- Witness for C8: adding an AI leaves a balance of 2 untouched; with three
seated AI players and 2 credits the start is blocked reporting 3 required and
2 remaining; with 5 credits and a server charge of 3 the balance becomes 2. -/
theorem credits_start_only_witness :
    let mkAI : Nat → Player := fun n =>
      { id := "ai" ++ toString n, name := "AI" ++ toString n, seat := n,
        player_type := "ai", is_captain := false, is_on_mission := false, is_online := true }
    let room : Room :=
      { id := "r1", name := "room", host_id := "p1", phase := "waiting",
        players := [mkAI 1, mkAI 2, mkAI 3] }
    (handleAddAI (some "r1") true (some "tok") 2 1).2 = 2 ∧
      strFalsy (some "r1") = false ∧ strFalsy (some "p1") = false ∧
      ((aiSeatedCount (some room) : Int) > (2 : Int)) ∧
      handleStartGame (some "r1") (some "p1") true (some { ai_credits := 2 }) (some room)
        (Except.ok 3) = StartOutcome.blockedInsufficient 3 2 ∧
      handleStartGame (some "r1") (some "p1") true (some { ai_credits := 5 }) (some room)
        (Except.ok 3) = StartOutcome.startedAndNavigated (some 2) := by
  intro mkAI room
  refine ⟨?_, rfl, rfl, by decide, ?_, ?_⟩
  · exact credits_start_only.1 (some "r1") true (some "tok") 2 1
  · have h := credits_start_only.2.1 (some "r1") (some "p1") { ai_credits := 2 } (some room)
      (Except.ok 3) rfl rfl (by decide)
    simpa [aiSeatedCount, room, mkAI] using h
  · have h := credits_start_only.2.2 (some "r1") (some "p1") { ai_credits := 5 } (some room)
      3 rfl rfl (by decide) (by decide)
    simpa using h

/-- C9: `sendMessage` transmits the message exactly when the stored socket
exists and is `OPEN`; in every case it leaves the whole store state unchanged
and its only other effect is the logged error — the effect is always one of
the two. -/
theorem sendMessage_open_only :
    ∀ (s : StoreState) (m : String),
      (sendMessage s m).1 = s ∧
      ((sendMessage s m).2 = SendEffect.sent m ↔
        ∃ w, s.ws = some w ∧ w.readyState = WsReadyState.OPEN) ∧
      ((sendMessage s m).2 = SendEffect.sent m ∨
        (sendMessage s m).2 = SendEffect.loggedError) := by
  intro s m
  refine ⟨?_, ?_, ?_⟩
  · cases hws : s.ws with
    | none => simp [sendMessage, hws]
    | some w =>
        by_cases h : w.readyState = WsReadyState.OPEN
        · simp [sendMessage, hws, h]
        · simp [sendMessage, hws, h]
  · cases hws : s.ws with
    | none => simp [sendMessage, hws]
    | some w =>
        by_cases h : w.readyState = WsReadyState.OPEN
        · simp [sendMessage, hws, h]
        · simp [sendMessage, hws, h]
  · cases hws : s.ws with
    | none => simp [sendMessage, hws]
    | some w =>
        by_cases h : w.readyState = WsReadyState.OPEN
        · simp [sendMessage, hws, h]
        · simp [sendMessage, hws, h]

/-- C10: `handleMessage` appends an incoming message to the log exactly when
its type is one of the six display types; `game_stopped` and `game_restart`
reset the log to empty; every other type — including `game_state_update`,
whose branch touches only the game-state fields — leaves the log unchanged. -/
theorem handleMessage_log_frame :
    ∀ (s : StoreState) (d : WsData),
      (displayTypes.contains d.type = true →
        (handleMessage s d).messages = s.messages ++ [d]) ∧
      (d.type = "game_stopped" ∨ d.type = "game_restart" →
        (handleMessage s d).messages = []) ∧
      (displayTypes.contains d.type = false →
        d.type ≠ "game_stopped" → d.type ≠ "game_restart" →
        (handleMessage s d).messages = s.messages) := by
  intro s d
  refine ⟨?_, ?_, ?_⟩
  · intro hc
    simp [displayTypes] at hc
    rcases hc with h | h | h | h | h | h <;> simp [handleMessage, displayTypes, h]
  · rintro (h | h) <;> simp [handleMessage, displayTypes, h]
  · intro hc h1 h2
    simp [displayTypes] at hc
    by_cases h3 : d.type = "game_state_update"
    · cases hcont : d.content with
      | none => simp [handleMessage, displayTypes, h3, hcont]
      | some c =>
          have hframe : ∀ (s' : StoreState), (applyStateUpdate s' c).messages = s'.messages := by
            intro s'
            cases hgs : s'.gameState <;> simp [applyStateUpdate, hgs]
          simp [handleMessage, displayTypes, h3, hcont, hframe]
    · simp [handleMessage, displayTypes, h1, h2, h3, hc]

/-- Witness for C10: a `game_message` is appended, a `pong` leaves the log
unchanged, and a `game_stopped` empties it. -/
theorem handleMessage_log_frame_witness :
    let s0 : StoreState :=
      { roomId := some "r1", playerId := some "p1", playerName := some "Alice",
        room := none, gameState := none, hostGameState := none,
        messages := [{ type := "game_start" }], ws := none, isConnected := false }
    displayTypes.contains "game_message" = true ∧
      displayTypes.contains "pong" = false ∧
      (handleMessage s0 { type := "game_message" }).messages =
        [{ type := "game_start" }, { type := "game_message" }] ∧
      (handleMessage s0 { type := "pong" }).messages = [{ type := "game_start" }] ∧
      (handleMessage s0 { type := "game_stopped" }).messages = [] := by
  intro s0
  refine ⟨by decide, by decide, ?_, ?_, ?_⟩
  · have h := (handleMessage_log_frame s0 { type := "game_message" }).1 (by decide)
    simpa [s0] using h
  · have h := (handleMessage_log_frame s0 { type := "pong" }).2.2 (by decide)
      (by decide) (by decide)
    simpa [s0] using h
  · exact (handleMessage_log_frame s0 { type := "game_stopped" }).2.1 (Or.inl rfl)

end Avalon
